import Mathlib

/-
Verification of the vectorscope analytic core: a shallow embedding of the
market-data service (provider fallback chain, technical-indicator engine,
signal-fusion verdict) and of the rule-based 72-hour forecast fallback.

Modelling conventions:
* JavaScript numbers are modelled as exact rationals (ℚ).  The claims below
  concern control flow, ordering and algebraic identities, none of which
  depend on binary floating-point rounding.
* `Math.random()` draws are modelled as an explicit stream `draws : ℕ → ℚ`
  together with the hypothesis that every draw lies in [0, 1).
* `Math.sqrt` (used only for the Bollinger band width) is not rational-valued,
  so it is passed as an uninterpreted function argument `sqrt : ℚ → ℚ`; every
  theorem below holds for an arbitrary such function.
* `Date.now()` is modelled as an explicit parameter `now : ℤ` (epoch ms);
  calendar dates of historical bars are modelled as integer day numbers,
  which is order-isomorphic to the ISO date strings the source produces.
* A thrown-and-caught provider failure is modelled as `Except Unit`, a
  `null` result as `Option.none`.
-/

/-- JavaScript `Math.round`: round half towards positive infinity. -/
def jsRound (q : ℚ) : ℚ := ((⌊q + 1/2⌋ : ℤ) : ℚ)

/-- JavaScript `Math.floor`. -/
def mathFloor (q : ℚ) : ℚ := ((⌊q⌋ : ℤ) : ℚ)

/-- `parseFloat(x.toFixed(2))`: rounding to two decimal places. -/
def toFixed2 (q : ℚ) : ℚ := jsRound (q * 100) / 100

/-- One daily bar of the `HistoricalData` interface (`types.ts`).  The ISO
date string is modelled as an integer day number. -/
structure HistoricalData where
  date : ℤ
  «open» : ℚ
  high : ℚ
  low : ℚ
  close : ℚ
  volume : ℚ
  deriving DecidableEq

/-- The `TechnicalIndicators` interface (`types.ts`), 18 numeric fields. -/
structure TechnicalIndicators where
  rsi : ℚ
  macd : ℚ
  macdSignal : ℚ
  macdHistogram : ℚ
  sma20 : ℚ
  sma50 : ℚ
  sma200 : ℚ
  ema12 : ℚ
  ema26 : ℚ
  bollingerUpper : ℚ
  bollingerMiddle : ℚ
  bollingerLower : ℚ
  atr : ℚ
  adx : ℚ
  stochK : ℚ
  stochD : ℚ
  obv : ℚ
  vwap : ℚ
  deriving DecidableEq

/-- The `MarketData` interface (`types.ts`). -/
structure MarketData where
  symbol : String
  price : ℚ
  change : ℚ
  changePercent : ℚ
  high : ℚ
  low : ℚ
  «open» : ℚ
  previousClose : ℚ
  volume : ℚ
  marketCap : Option ℚ := none
  timestamp : ℤ
  deriving DecidableEq

/-- The `FinnhubQuote` response shape used by the third quote attempt. -/
structure FinnhubQuote where
  c : ℚ
  d : ℚ
  dp : ℚ
  h : ℚ
  l : ℚ
  o : ℚ
  pc : ℚ
  t : ℤ
  deriving DecidableEq

/-- The verdict union type of `calculateVerdict`. -/
inductive Verdict where
  | STRONG_BUY
  | BUY
  | HOLD
  | SELL
  | STRONG_SELL
  deriving DecidableEq

/-- `marketTrend` union in `MarketContext`. -/
inductive Trend where
  | bullish
  | bearish
  | sideways
  deriving DecidableEq

/-- `volatility` union in `MarketContext`. -/
inductive Volatility where
  | low
  | medium
  | high
  | extreme
  deriving DecidableEq

/-- Direction union of `Prediction72H`. -/
inductive Direction where
  | UP
  | DOWN
  | SIDEWAYS
  deriving DecidableEq

/-- Sum of a list of rationals (Array.prototype.reduce with + and seed 0). -/
def listSum (l : List ℚ) : ℚ := l.foldl (fun a b => a + b) 0

/-- `Math.max(...arr)` for the non-empty arrays this code applies it to
(the JS value on an empty array is -Infinity, never reached here). -/
def listMax : List ℚ → ℚ
  | [] => 0
  | h :: t => t.foldl max h

/-- `Math.min(...arr)` for the non-empty arrays this code applies it to. -/
def listMin : List ℚ → ℚ
  | [] => 0
  | h :: t => t.foldl min h

/-- `calculateSMA` (marketService.ts): mean of the last `period` values, or
the last element (0 when empty) when fewer than `period` values exist. -/
def calculateSMA (data : List ℚ) (period : ℕ) : ℚ :=
  if data.length < period then data.getLastD 0
  else listSum (data.drop (data.length - period)) / (period : ℚ)

/-- `calculateEMA` (marketService.ts): seed with the first element, then fold
`ema = value*k + ema*(1-k)` with `k = 2/(period+1)` over the rest. -/
def calculateEMA (data : List ℚ) (period : ℕ) : ℚ :=
  match data with
  | [] => 0
  | h :: t =>
    let multiplier : ℚ := 2 / ((period : ℚ) + 1)
    t.foldl (fun ema value => value * multiplier + ema * (1 - multiplier)) h

/-- The adjacent close-to-close deltas `closes[i] - closes[i-1]` for
`i = closes.length - period .. closes.length - 1`, as accumulated by the
loop in `calculateRSI`. -/
def rsiDeltas (closes : List ℚ) (period : ℕ) : List ℚ :=
  (List.range period).map (fun j =>
    closes.getD (closes.length - period + j) 0 -
      closes.getD (closes.length - period + j - 1) 0)

/-- The summed positive deltas (`gains`) of the `calculateRSI` loop. -/
def rsiGains (closes : List ℚ) (period : ℕ) : ℚ :=
  listSum ((rsiDeltas closes period).map
    (fun change => if change > 0 then change else 0))

/-- The summed absolute negative deltas (`losses`) of the `calculateRSI`
loop (a zero delta contributes `Math.abs(0) = 0` to `losses`). -/
def rsiLosses (closes : List ℚ) (period : ℕ) : ℚ :=
  listSum ((rsiDeltas closes period).map
    (fun change => if change > 0 then 0 else abs change))

/-- The final step of `calculateRSI`: `100` when `avgLoss` is zero, else
`100 - 100/(1 + rs)` with `rs = avgGain/avgLoss`. -/
def rsiFromAverages (avgGain avgLoss : ℚ) : ℚ :=
  if avgLoss = 0 then 100
  else 100 - 100 / (1 + avgGain / avgLoss)

/-- `calculateRSI` (marketService.ts). -/
def calculateRSI (closes : List ℚ) (period : ℕ) : ℚ :=
  if closes.length < period + 1 then 50
  else
    rsiFromAverages (rsiGains closes period / (period : ℚ))
      (rsiLosses closes period / (period : ℚ))

/-- `calculateStdDev` (marketService.ts); `Math.sqrt` is the uninterpreted
argument `sqrt`. -/
def calculateStdDev (sqrt : ℚ → ℚ) (data : List ℚ) : ℚ :=
  let mean := listSum data / (data.length : ℚ)
  let squaredDiffs := data.map (fun x => (x - mean) ^ 2)
  sqrt (listSum squaredDiffs / (data.length : ℚ))

/-- `calculateATR` (marketService.ts). -/
def calculateATR (highs lows closes : List ℚ) (period : ℕ) : ℚ :=
  if highs.length < period + 1 then 0
  else
    let trueRanges := (List.range (highs.length - 1)).map (fun j =>
      let i := j + 1
      max (highs.getD i 0 - lows.getD i 0)
        (max (abs (highs.getD i 0 - closes.getD (i - 1) 0))
          (abs (lows.getD i 0 - closes.getD (i - 1) 0))))
    calculateSMA (trueRanges.drop (trueRanges.length - period)) period

/-- `calculateADX` (marketService.ts), the simplified form in the source. -/
def calculateADX (highs lows closes : List ℚ) (period : ℕ) : ℚ :=
  if highs.length < period + 1 then 25
  else
    let atr := calculateATR highs lows closes period
    if atr = 0 then 25
    else
      let dm := (List.range period).foldl (fun (pm : ℚ × ℚ) j =>
        let i := highs.length - period + j
        let upMove := highs.getD i 0 - highs.getD (i - 1) 0
        let downMove := lows.getD (i - 1) 0 - lows.getD i 0
        let plus := if upMove > downMove ∧ upMove > 0 then pm.1 + upMove else pm.1
        let minus := if downMove > upMove ∧ downMove > 0 then pm.2 + downMove else pm.2
        (plus, minus)) (0, 0)
      let plusDI := dm.1 / (period : ℚ) / atr * 100
      let minusDI := dm.2 / (period : ℚ) / atr * 100
      let dx := abs (plusDI - minusDI) / (plusDI + minusDI + 1/1000) * 100
      min 100 (max 0 dx)

/-- `calculateStochastic` (marketService.ts); returns (%K, %D) with %D ≡ %K. -/
def calculateStochastic (highs lows closes : List ℚ) (period : ℕ) : ℚ × ℚ :=
  if closes.length < period then (50, 50)
  else
    let recentHighs := highs.drop (highs.length - period)
    let recentLows := lows.drop (lows.length - period)
    let currentClose := closes.getD (closes.length - 1) 0
    let highestHigh := listMax recentHighs
    let lowestLow := listMin recentLows
    let k := (currentClose - lowestLow) / (highestHigh - lowestLow + 1/1000) * 100
    (min 100 (max 0 k), min 100 (max 0 k))

/-- `calculateOBV` (marketService.ts). -/
def calculateOBV (closes volumes : List ℚ) : ℚ :=
  (List.range (closes.length - 1)).foldl (fun obv j =>
    let i := j + 1
    if closes.getD i 0 > closes.getD (i - 1) 0 then obv + volumes.getD i 0
    else if closes.getD i 0 < closes.getD (i - 1) 0 then obv - volumes.getD i 0
    else obv) 0

/-- `calculateVWAP` (marketService.ts), single-bar approximation. -/
def calculateVWAP (close high low volume : ℚ) : ℚ :=
  let typicalPrice := (high + low + close) / 3
  if volume > 0 then typicalPrice else close

/-- `getDefaultIndicators` (marketService.ts). -/
def getDefaultIndicators : TechnicalIndicators where
  rsi := 50
  macd := 0
  macdSignal := 0
  macdHistogram := 0
  sma20 := 0
  sma50 := 0
  sma200 := 0
  ema12 := 0
  ema26 := 0
  bollingerUpper := 0
  bollingerMiddle := 0
  bollingerLower := 0
  atr := 0
  adx := 25
  stochK := 50
  stochD := 50
  obv := 0
  vwap := 0

/-- The `macdHistory` array computed inside `calculateTechnicalIndicators`:
index `i` holds 0 for `i < 26` and otherwise the full EMA(12)−EMA(26)
recomputation over `closes[0..i]`. -/
def macdHistoryOf (closes : List ℚ) : List ℚ :=
  (List.range closes.length).map (fun i =>
    if i < 26 then 0
    else calculateEMA (closes.take (i + 1)) 12 - calculateEMA (closes.take (i + 1)) 26)

/-- `calculateTechnicalIndicators` (marketService.ts). -/
def calculateTechnicalIndicators (sqrt : ℚ → ℚ)
    (historical : List HistoricalData) : TechnicalIndicators :=
  if historical.length < 26 then getDefaultIndicators
  else
    let closes := (historical.map HistoricalData.close).reverse
    let highs := (historical.map HistoricalData.high).reverse
    let lows := (historical.map HistoricalData.low).reverse
    let volumes := (historical.map HistoricalData.volume).reverse
    let sma20 := calculateSMA closes 20
    let sma50 := calculateSMA closes 50
    let sma200 := calculateSMA closes (min 200 closes.length)
    let ema12 := calculateEMA closes 12
    let ema26 := calculateEMA closes 26
    let macd := ema12 - ema26
    let macdHistory := macdHistoryOf closes
    let macdSignal := calculateEMA (macdHistory.drop (macdHistory.length - 9)) 9
    let macdHistogram := macd - macdSignal
    let rsi := calculateRSI closes 14
    let stdDev := calculateStdDev sqrt (closes.drop (closes.length - 20))
    let bollingerMiddle := sma20
    let bollingerUpper := bollingerMiddle + stdDev * 2
    let bollingerLower := bollingerMiddle - stdDev * 2
    let atr := calculateATR highs lows closes 14
    let adx := calculateADX highs lows closes 14
    let stoch := calculateStochastic highs lows closes 14
    let obv := calculateOBV closes volumes
    let vwap := calculateVWAP (closes.getLastD 0) (highs.getLastD 0)
      (lows.getLastD 0) (volumes.getLastD 0)
    { rsi := rsi
      macd := macd
      macdSignal := macdSignal
      macdHistogram := macdHistogram
      sma20 := sma20
      sma50 := sma50
      sma200 := sma200
      ema12 := ema12
      ema26 := ema26
      bollingerUpper := bollingerUpper
      bollingerMiddle := bollingerMiddle
      bollingerLower := bollingerLower
      atr := atr
      adx := adx
      stochK := stoch.1
      stochD := stoch.2
      obv := obv
      vwap := vwap }

/-- `calculateVerdict` (marketService.ts). -/
def calculateVerdict (sentimentVector priceVector coherence rsi : ℚ) : Verdict :=
  let combined := (sentimentVector + priceVector) / 2
  if rsi > 80 then Verdict.SELL
  else if rsi < 20 then Verdict.BUY
  else if coherence < 0.6 then Verdict.HOLD
  else if combined > 0.6 then Verdict.STRONG_BUY
  else if combined > 0.2 then Verdict.BUY
  else if combined < -0.6 then Verdict.STRONG_SELL
  else if combined < -0.2 then Verdict.SELL
  else Verdict.HOLD

/-- The error thrown when every quote provider is exhausted; it carries the
uppercased ticker (`Unable to fetch quote for ...`). -/
inductive QuoteError where
  | quoteUnavailable (ticker : String)
  deriving DecidableEq

/-- A provider attempt as seen from `fetchRealTimeQuote` after its own
try/catch: a thrown error (`Except.error ()`), a `null` result
(`Except.ok none`), or a quote. -/
def attemptFailed (a : Except Unit (Option MarketData)) : Prop :=
  a = Except.error () ∨ a = Except.ok none

/-- The `MarketData` built from a Finnhub quote inside `fetchRealTimeQuote`. -/
def finnhubQuoteData (symbol : String) (q : FinnhubQuote) : MarketData where
  symbol := symbol
  price := q.c
  change := q.d
  changePercent := q.dp
  high := q.h
  low := q.l
  «open» := q.o
  previousClose := q.pc
  volume := 0
  marketCap := none
  timestamp := q.t * 1000

/-- `fetchRealTimeQuote` (marketService.ts): Yahoo quote endpoint, then Yahoo
chart endpoint, then Finnhub (only when an API key is configured), else the
terminal `QuoteUnavailable` error.  Each network attempt is passed in as its
already-caught outcome. -/
def fetchRealTimeQuote (symbol : String)
    (yahooQuoteAttempt yahooChartAttempt : Except Unit (Option MarketData))
    (finnhubApiKey : String)
    (finnhubAttempt : Except Unit (Option FinnhubQuote)) :
    Except QuoteError MarketData :=
  let upperSymbol := symbol.toUpper
  match yahooQuoteAttempt with
  | Except.ok (some data) => Except.ok data
  | _ =>
    match yahooChartAttempt with
    | Except.ok (some data) => Except.ok data
    | _ =>
      if finnhubApiKey ≠ "" then
        match finnhubAttempt with
        | Except.ok (some q) =>
          if q.c > 0 then Except.ok (finnhubQuoteData upperSymbol q)
          else Except.error (QuoteError.quoteUnavailable upperSymbol)
        | _ => Except.error (QuoteError.quoteUnavailable upperSymbol)
      else Except.error (QuoteError.quoteUnavailable upperSymbol)

/-- The base-price lookup table in `getBasePrice` (marketService.ts). -/
def basePrices : List (String × ℚ) :=
  [("AAPL", 254), ("GOOGL", 193), ("MSFT", 437), ("AMZN", 227), ("TSLA", 455),
   ("NVDA", 137), ("META", 604), ("NFLX", 925), ("AMD", 119), ("INTC", 20),
   ("SPY", 600), ("QQQ", 531), ("DIS", 112), ("PYPL", 89), ("COIN", 330),
   ("BA", 178), ("JPM", 243), ("V", 318), ("WMT", 91), ("JNJ", 145),
   ("BTC-USD", 94000), ("ETH-USD", 3400), ("SOL-USD", 190), ("XRP-USD", 2.2)]

/-- `getBasePrice` (marketService.ts); the random draw for the unknown-symbol
fallback is the explicit argument `d`. -/
def getBasePrice (symbol : String) (d : ℚ) : ℚ :=
  match basePrices.lookup symbol.toUpper with
  | some p => p
  | none => 100 + d * 200

/-- The random-walk price update of one `generateFallbackHistoricalData`
iteration: `currentPrice + change + meanReversion`. -/
def fallbackNextPrice (basePrice currentPrice changeDraw : ℚ) : ℚ :=
  let change := (changeDraw - 1/2) * basePrice * (3/100)
  let meanReversion := (basePrice - currentPrice) * (2/100)
  currentPrice + change + meanReversion

/-- The bar built by one `generateFallbackHistoricalData` iteration with loop
index `i`: dated `i` days before today, OHLC spread around the walked price
by a random volatility in [1%, 3%), volume a random integer in
[1e6, 11e6). -/
def fallbackBar (today : ℤ) (i : ℕ)
    (price volDraw openDraw volumeDraw : ℚ) : HistoricalData :=
  let volatility := volDraw * (2/100) + 1/100
  let high := price * (1 + volatility)
  let low := price * (1 - volatility)
  let o := low + openDraw * (high - low)
  { date := today - (i : ℤ)
    «open» := toFixed2 o
    high := toFixed2 high
    low := toFixed2 low
    close := toFixed2 price
    volume := mathFloor (volumeDraw * 10000000) + 1000000 }

/-- The loop of `generateFallbackHistoricalData`: with `m` bars still to
produce, this iteration is loop index `i = m - 1` (the source counts
`i = 99` down to `0`), consumes draws `4*j .. 4*j+3` (change, volatility,
open position, volume) and pushes its bar in front of the remaining ones. -/
def genFallbackAux (basePrice : ℚ) (today : ℤ) (draws : ℕ → ℚ) :
    ℕ → ℕ → ℚ → List HistoricalData
  | _, 0, _ => []
  | j, m + 1, currentPrice =>
    let price := fallbackNextPrice basePrice currentPrice (draws (4 * j))
    fallbackBar today m price (draws (4 * j + 1)) (draws (4 * j + 2))
        (draws (4 * j + 3)) ::
      genFallbackAux basePrice today draws (j + 1) m price

/-- `generateFallbackHistoricalData` (marketService.ts): 100 synthetic daily
bars from a mean-reverting random walk around the per-symbol base price.
Draw 0 feeds `getBasePrice`; the loop consumes the rest of the stream. -/
def generateFallbackHistoricalData (symbol : String) (today : ℤ)
    (draws : ℕ → ℚ) : List HistoricalData :=
  let basePrice := getBasePrice symbol (draws 0)
  genFallbackAux basePrice today (fun n => draws (n + 1)) 0 100 basePrice

/-- The HistoricalBar invariants claimed for synthesized bars. -/
def validBar (bar : HistoricalData) : Prop :=
  bar.low ≤ min bar.«open» bar.close ∧
  min bar.«open» bar.close ≤ max bar.«open» bar.close ∧
  max bar.«open» bar.close ≤ bar.high ∧
  bar.low ≤ bar.high ∧
  0 ≤ bar.volume ∧
  ∃ k : ℤ, bar.volume = (k : ℚ)

/-- The `CaseAnalysis` interface (`types.ts`). -/
structure CaseAnalysis where
  Score : ℚ
  Argument : String
  MomentumKey : Option String := none
  ResistanceKey : Option String := none
  Catalysts : List String
  Risks : List String
  TimeHorizon : String
  Confidence : ℚ
  deriving DecidableEq

/-- The fields of the `MarketContext` interface (`types.ts`) read by the
forecast fallback (`recentNews` and `historicalPrices` are never read by
the functions embedded here and are omitted). -/
structure MarketContext where
  ticker : String
  currentPrice : ℚ
  priceChange24h : ℚ
  priceChange7d : ℚ
  priceChange30d : ℚ
  volume24h : ℚ
  volumeChange : ℚ
  technicals : TechnicalIndicators
  marketTrend : Trend
  volatility : Volatility
  deriving DecidableEq

/-- The `Prediction72H` interface (`types.ts`); the `timeframe` object is
flattened into its two fields. -/
structure Prediction72H where
  direction : Direction
  confidence : ℚ
  predictedChange : ℚ
  priceTarget : ℚ
  supportLevel : ℚ
  resistanceLevel : ℚ
  reasoning : String
  keyFactors : List String
  riskFactors : List String
  timeframeStart : ℤ
  timeframeEnd : ℤ
  deriving DecidableEq

/-- Rendering of a `Trend` into the template strings of the source. -/
def trendStr : Trend → String
  | Trend.bullish => "bullish"
  | Trend.bearish => "bearish"
  | Trend.sideways => "sideways"

/-- The first stage of `generatePrediction` (geminiService.ts): direction,
base confidence and base predicted change from the combined vector and the
bull/bear conviction scores. -/
def basePrediction (combinedVector bullStrength bearStrength : ℚ) :
    Direction × ℚ × ℚ :=
  if combinedVector > 0.3 ∧ bullStrength > bearStrength + 10 then
    (Direction.UP,
      min 85 (50 + combinedVector * 30 + (bullStrength - bearStrength) / 2),
      1.5 + combinedVector * 3)
  else if combinedVector < -0.3 ∧ bearStrength > bullStrength + 10 then
    (Direction.DOWN,
      min 85 (50 + abs combinedVector * 30 + (bearStrength - bullStrength) / 2),
      -(1.5 + abs combinedVector * 3))
  else if abs combinedVector < 0.15 ∨ abs (bullStrength - bearStrength) < 10 then
    (Direction.SIDEWAYS,
      60 + (20 - abs (bullStrength - bearStrength)) / 2,
      combinedVector * 1.5)
  else if combinedVector > 0 then
    (Direction.UP, 55 + combinedVector * 20, 0.5 + combinedVector * 2)
  else
    (Direction.DOWN, 55 + abs combinedVector * 20, -(0.5 + abs combinedVector * 2))

/-- The RSI-adjustment stage of `generatePrediction`: an anti-chasing penalty
of 15 confidence points plus halving of the predicted change when RSI is
extreme in the direction of the call. -/
def rsiAdjust (rsi : ℚ) (dir : Direction) (confidence predictedChange : ℚ) :
    ℚ × ℚ :=
  if rsi > 75 ∧ dir = Direction.UP then
    (confidence - 15, predictedChange * 0.5)
  else if rsi < 25 ∧ dir = Direction.DOWN then
    (confidence - 15, predictedChange * 0.5)
  else (confidence, predictedChange)

/-- The trend-alignment stage of `generatePrediction`: +10 confidence when
the call agrees with the market trend. -/
def trendBonus (marketTrend : Trend) (dir : Direction) (confidence : ℚ) : ℚ :=
  if (marketTrend = Trend.bullish ∧ dir = Direction.UP) ∨
      (marketTrend = Trend.bearish ∧ dir = Direction.DOWN) then
    confidence + 10
  else confidence

/-- The final confidence clamp of `generatePrediction`. -/
def clampConfidence (confidence : ℚ) : ℚ := min 90 (max 35 confidence)

/-- The reasoning/keyFactors/riskFactors construction of `generatePrediction`
for each direction. -/
def predictionNarrative (technicals : TechnicalIndicators) (currentPrice : ℚ)
    (marketTrend : Trend) (dir : Direction) :
    String × List String × List String :=
  match dir with
  | Direction.UP =>
    let r0 := "Technical indicators suggest bullish momentum with " ++
      trendStr marketTrend ++ " market structure. "
    let r1 := if technicals.macdHistogram > 0 then
        r0 ++ "MACD histogram is positive indicating buying pressure. " else r0
    let k1 : List String := if technicals.macdHistogram > 0 then
        ["Positive MACD momentum"] else []
    let r2 := if currentPrice > technicals.sma50 then
        r1 ++ "Price holding above SMA50 confirms uptrend. " else r1
    let k2 := if currentPrice > technicals.sma50 then
        k1 ++ ["Above key moving average"] else k1
    let k3 := if technicals.rsi < 70 then k2 ++ ["RSI not yet overbought"] else k2
    let risks := ["Unexpected negative news"] ++
      (if technicals.rsi > 60 then ["Approaching overbought territory"] else [])
    (r2, k3, risks)
  | Direction.DOWN =>
    let r0 := "Technical weakness detected with " ++ trendStr marketTrend ++
      " bias. "
    let r1 := if technicals.macdHistogram < 0 then
        r0 ++ "MACD histogram negative showing selling pressure. " else r0
    let k1 : List String := if technicals.macdHistogram < 0 then
        ["Negative MACD momentum"] else []
    let r2 := if currentPrice < technicals.sma50 then
        r1 ++ "Price below SMA50 signals weakness. " else r1
    let k2 := if currentPrice < technicals.sma50 then
        k1 ++ ["Below key moving average"] else k1
    let k3 := if technicals.rsi > 50 then k2 ++ ["RSI has room to fall"] else k2
    let risks := ["Unexpected positive catalyst"] ++
      (if technicals.rsi < 40 then ["Approaching oversold territory"] else [])
    (r2, k3, risks)
  | Direction.SIDEWAYS =>
    ("Mixed signals suggest consolidation likely. Bull and bear cases are balanced with no clear directional bias. Range-bound trading expected.",
      ["Balanced bull/bear sentiment", "Low directional conviction"],
      ["Breakout in either direction", "Catalyst-driven move"])

/-- `generatePrediction` (geminiService.ts): the rule-based deterministic
72-hour forecast fallback.  `Date.now()` is the explicit argument `now`. -/
def generatePrediction (context : MarketContext)
    (sentimentVector priceVector : ℚ) (bullCase bearCase : CaseAnalysis)
    (now : ℤ) : Prediction72H :=
  let combinedVector := (sentimentVector + priceVector) / 2
  let base := basePrediction combinedVector bullCase.Score bearCase.Score
  let dir := base.1
  let adjusted := rsiAdjust context.technicals.rsi dir base.2.1 base.2.2
  let confidence := clampConfidence
    (trendBonus context.marketTrend dir adjusted.1)
  let predictedChange := adjusted.2
  let priceTarget := context.currentPrice * (1 + predictedChange / 100)
  let supportLevel := min context.technicals.bollingerLower
    (context.technicals.sma50 * 0.98)
  let resistanceLevel := max context.technicals.bollingerUpper
    (context.technicals.sma50 * 1.02)
  let narrative := predictionNarrative context.technicals context.currentPrice
    context.marketTrend dir
  let keyFactors := if narrative.2.1 = [] then ["Technical momentum alignment"]
    else narrative.2.1
  let riskFactors := if narrative.2.2 = [] then ["General market volatility"]
    else narrative.2.2
  { direction := dir
    confidence := jsRound confidence
    predictedChange := toFixed2 predictedChange
    priceTarget := toFixed2 priceTarget
    supportLevel := toFixed2 supportLevel
    resistanceLevel := toFixed2 resistanceLevel
    reasoning := narrative.1.trim
    keyFactors := keyFactors
    riskFactors := riskFactors
    timeframeStart := now
    timeframeEnd := now + 72 * 60 * 60 * 1000 }

/-- Claim C1: the verdict is a pure function of (sentimentVector, priceVector,
coherence, rsi) evaluated in this order: rsi > 80 forces SELL and rsi < 20
forces BUY regardless of the other arguments; otherwise coherence < 0.6
forces HOLD; otherwise the combined vector (sentiment+price)/2 selects
STRONG_BUY above 0.6, BUY above 0.2, STRONG_SELL below -0.6, SELL below
-0.2, and HOLD in between.  In particular rsi = 85 always yields SELL. -/
theorem calculateVerdict_spec :
    ∀ s p c r : ℚ,
      (r > 80 → calculateVerdict s p c r = Verdict.SELL) ∧
      (r < 20 → calculateVerdict s p c r = Verdict.BUY) ∧
      (r ≤ 80 → 20 ≤ r → c < 0.6 → calculateVerdict s p c r = Verdict.HOLD) ∧
      (r ≤ 80 → 20 ≤ r → 0.6 ≤ c →
        (((s + p) / 2 > 0.6 → calculateVerdict s p c r = Verdict.STRONG_BUY) ∧
         ((s + p) / 2 ≤ 0.6 → (s + p) / 2 > 0.2 →
           calculateVerdict s p c r = Verdict.BUY) ∧
         ((s + p) / 2 < -0.6 → calculateVerdict s p c r = Verdict.STRONG_SELL) ∧
         (-0.6 ≤ (s + p) / 2 → (s + p) / 2 < -0.2 →
           calculateVerdict s p c r = Verdict.SELL) ∧
         (-0.2 ≤ (s + p) / 2 → (s + p) / 2 ≤ 0.2 →
           calculateVerdict s p c r = Verdict.HOLD))) ∧
      (calculateVerdict s p c 85 = Verdict.SELL) := by
  intro s p c r
  refine ⟨?_, ?_, ?_, ?_, ?_⟩
  · intro h
    simp [calculateVerdict, h]
  · intro h
    have h1 : ¬ (r > 80) := by linarith
    simp [calculateVerdict, h1, h]
  · intro h80 h20 hc
    have h1 : ¬ (r > 80) := by linarith
    have h2 : ¬ (r < 20) := by linarith
    simp [calculateVerdict, h1, h2, hc]
  · intro h80 h20 hc
    have h1 : ¬ (r > 80) := by linarith
    have h2 : ¬ (r < 20) := by linarith
    have h3 : ¬ (c < 0.6) := by linarith
    refine ⟨?_, ?_, ?_, ?_, ?_⟩
    · intro hb
      simp [calculateVerdict, h1, h2, h3, hb]
    · intro hb1 hb2
      have h4 : ¬ ((s + p) / 2 > 0.6) := by linarith
      simp [calculateVerdict, h1, h2, h3, h4, hb2]
    · intro hb
      have h4 : ¬ ((s + p) / 2 > 0.6) := by linarith
      have h5 : ¬ ((s + p) / 2 > 0.2) := by linarith
      simp [calculateVerdict, h1, h2, h3, h4, h5, hb]
    · intro hb1 hb2
      have h4 : ¬ ((s + p) / 2 > 0.6) := by linarith
      have h5 : ¬ ((s + p) / 2 > 0.2) := by linarith
      have h6 : ¬ ((s + p) / 2 < -0.6) := by linarith
      simp [calculateVerdict, h1, h2, h3, h4, h5, h6, hb2]
    · intro hb1 hb2
      have h4 : ¬ ((s + p) / 2 > 0.6) := by linarith
      have h5 : ¬ ((s + p) / 2 > 0.2) := by linarith
      have h6 : ¬ ((s + p) / 2 < -0.6) := by linarith
      have h7 : ¬ ((s + p) / 2 < -0.2) := by linarith
      simp [calculateVerdict, h1, h2, h3, h4, h5, h6, h7]
  · norm_num [calculateVerdict]

/-- Concrete instances of every branch of the verdict specification. -/
theorem calculateVerdict_spec_witness :
    calculateVerdict 0 0 1 85 = Verdict.SELL ∧
    calculateVerdict 0 0 1 10 = Verdict.BUY ∧
    calculateVerdict 1 1 0.5 50 = Verdict.HOLD ∧
    calculateVerdict 1 1 1 50 = Verdict.STRONG_BUY ∧
    calculateVerdict 0.5 0.5 1 50 = Verdict.BUY ∧
    calculateVerdict (-1) (-1) 1 50 = Verdict.STRONG_SELL ∧
    calculateVerdict (-0.5) (-0.5) 1 50 = Verdict.SELL ∧
    calculateVerdict 0 0 1 50 = Verdict.HOLD := by
  refine ⟨(calculateVerdict_spec 0 0 1 85).1 (by norm_num),
    (calculateVerdict_spec 0 0 1 10).2.1 (by norm_num),
    (calculateVerdict_spec 1 1 0.5 50).2.2.1 (by norm_num) (by norm_num)
      (by norm_num),
    ((calculateVerdict_spec 1 1 1 50).2.2.2.1 (by norm_num) (by norm_num)
      (by norm_num)).1 (by norm_num),
    ((calculateVerdict_spec 0.5 0.5 1 50).2.2.2.1 (by norm_num) (by norm_num)
      (by norm_num)).2.1 (by norm_num) (by norm_num),
    ((calculateVerdict_spec (-1) (-1) 1 50).2.2.2.1 (by norm_num) (by norm_num)
      (by norm_num)).2.2.1 (by norm_num),
    ((calculateVerdict_spec (-0.5) (-0.5) 1 50).2.2.2.1 (by norm_num)
      (by norm_num) (by norm_num)).2.2.2.1 (by norm_num) (by norm_num),
    ((calculateVerdict_spec 0 0 1 50).2.2.2.1 (by norm_num) (by norm_num)
      (by norm_num)).2.2.2.2 (by norm_num) (by norm_num)⟩

/-- Claim C2: a historical series with fewer than 26 bars yields exactly the
fixed default indicator bundle (rsi = 50, adx = 25, stochK = stochD = 50,
all other fields 0), independent of the series contents. -/
theorem calculateTechnicalIndicators_default :
    ∀ (sqrt : ℚ → ℚ) (historical : List HistoricalData),
      historical.length < 26 →
      calculateTechnicalIndicators sqrt historical =
        { rsi := 50, macd := 0, macdSignal := 0, macdHistogram := 0,
          sma20 := 0, sma50 := 0, sma200 := 0, ema12 := 0, ema26 := 0,
          bollingerUpper := 0, bollingerMiddle := 0, bollingerLower := 0,
          atr := 0, adx := 25, stochK := 50, stochD := 50, obv := 0,
          vwap := 0 } := by
  intro sqrt historical h
  simp [calculateTechnicalIndicators, h, getDefaultIndicators]

/-- The default bundle on a concrete short series. -/
theorem calculateTechnicalIndicators_default_witness :
    calculateTechnicalIndicators id [] =
      { rsi := 50, macd := 0, macdSignal := 0, macdHistogram := 0,
        sma20 := 0, sma50 := 0, sma200 := 0, ema12 := 0, ema26 := 0,
        bollingerUpper := 0, bollingerMiddle := 0, bollingerLower := 0,
        atr := 0, adx := 25, stochK := 50, stochD := 50, obv := 0,
        vwap := 0 } :=
  calculateTechnicalIndicators_default id [] (by simp)

/-- Folding addition from an accumulator equals the accumulator plus the sum. -/
theorem listSum_eq_sum (l : List ℚ) : listSum l = l.sum := by
  unfold listSum
  suffices h : ∀ a : ℚ, l.foldl (fun x y => x + y) a = a + l.sum by
    simpa using h 0
  induction l with
  | nil => simp
  | cons x t ih =>
    intro a
    simp only [List.foldl_cons, List.sum_cons, ih]
    ring

/-- The summed gains of the RSI loop are non-negative. -/
theorem rsiGains_nonneg (closes : List ℚ) (period : ℕ) :
    0 ≤ rsiGains closes period := by
  rw [rsiGains, listSum_eq_sum]
  apply List.sum_nonneg
  intro x hx
  obtain ⟨d, _, rfl⟩ := List.mem_map.mp hx
  split_ifs with h
  · linarith
  · exact le_refl 0

/-- The summed losses of the RSI loop are non-negative. -/
theorem rsiLosses_nonneg (closes : List ℚ) (period : ℕ) :
    0 ≤ rsiLosses closes period := by
  rw [rsiLosses, listSum_eq_sum]
  apply List.sum_nonneg
  intro x hx
  obtain ⟨d, _, rfl⟩ := List.mem_map.mp hx
  split_ifs with h
  · exact le_refl 0
  · exact abs_nonneg d

/-- The RSI final formula lies in [0, 100] whenever both averages are
non-negative. -/
theorem rsiFromAverages_bounds (avgGain avgLoss : ℚ) (hg : 0 ≤ avgGain)
    (hl : 0 ≤ avgLoss) :
    0 ≤ rsiFromAverages avgGain avgLoss ∧
      rsiFromAverages avgGain avgLoss ≤ 100 := by
  unfold rsiFromAverages
  split_ifs with h
  · norm_num
  · have hl' : 0 < avgLoss := lt_of_le_of_ne hl (Ne.symm h)
    have hrs : 0 ≤ avgGain / avgLoss := by positivity
    have h2 : 0 < 100 / (1 + avgGain / avgLoss) := by positivity
    have h3 : 100 / (1 + avgGain / avgLoss) ≤ 100 :=
      div_le_self (by norm_num) (by linarith)
    constructor <;> linarith

/-- Claim C3: for period 14, `calculateRSI` always returns a value in
[0, 100]; it returns exactly 100 whenever at least 15 closes exist, all of
the last 14 adjacent deltas are non-negative and at least one is positive;
and it returns 50 whenever fewer than 15 closes are available. -/
theorem calculateRSI_spec :
    ∀ closes : List ℚ,
      (0 ≤ calculateRSI closes 14 ∧ calculateRSI closes 14 ≤ 100) ∧
      (15 ≤ closes.length →
        (∀ d ∈ rsiDeltas closes 14, 0 ≤ d) →
        (∃ d ∈ rsiDeltas closes 14, 0 < d) →
        calculateRSI closes 14 = 100) ∧
      (closes.length < 15 → calculateRSI closes 14 = 50) := by
  intro closes
  by_cases hlen : closes.length < 14 + 1
  · refine ⟨by norm_num [calculateRSI, hlen], ?_, ?_⟩
    · intro h15 _ _
      exact absurd h15 (by omega)
    · intro _
      simp [calculateRSI, hlen]
  · refine ⟨?_, ?_, ?_⟩
    · have hg : 0 ≤ rsiGains closes 14 / ((14 : ℕ) : ℚ) := by
        have := rsiGains_nonneg closes 14
        positivity
      have hl : 0 ≤ rsiLosses closes 14 / ((14 : ℕ) : ℚ) := by
        have := rsiLosses_nonneg closes 14
        positivity
      simpa [calculateRSI, hlen] using
        rsiFromAverages_bounds (rsiGains closes 14 / ((14 : ℕ) : ℚ))
          (rsiLosses closes 14 / ((14 : ℕ) : ℚ)) hg hl
    · intro _ hall _
      have hzero : rsiLosses closes 14 = 0 := by
        rw [rsiLosses, listSum_eq_sum]
        apply List.sum_eq_zero
        intro x hx
        obtain ⟨d, hd, rfl⟩ := List.mem_map.mp hx
        by_cases hdp : d > 0
        · simp [hdp]
        · have hdz : d = 0 := le_antisymm (not_lt.mp hdp) (hall d hd)
          simp [hdp, hdz]
      simp [calculateRSI, hlen, hzero, rsiFromAverages]
    · intro h
      exact absurd h (by omega)

/-- RSI on a strictly increasing 15-close series is exactly 100, and RSI on
a short series is 50. -/
theorem calculateRSI_spec_witness :
    calculateRSI
      [1, 2, 3, 4, 5, 6, 7, 8, 9, 10, 11, 12, 13, 14, 15] 14 = 100 ∧
    calculateRSI [1, 2, 3] 14 = 50 := by
  have hdel : rsiDeltas [1, 2, 3, 4, 5, 6, 7, 8, 9, 10, 11, 12, 13, 14, 15] 14 =
      [1, 1, 1, 1, 1, 1, 1, 1, 1, 1, 1, 1, 1, 1] := by
    norm_num [rsiDeltas, List.range_succ]
  refine ⟨(calculateRSI_spec
      [1, 2, 3, 4, 5, 6, 7, 8, 9, 10, 11, 12, 13, 14, 15]).2.1
      (by norm_num) ?_ ?_,
    (calculateRSI_spec [1, 2, 3]).2.2 (by norm_num)⟩
  · intro d hd
    rw [hdel] at hd
    simp at hd
    rw [hd]
    norm_num
  · refine ⟨1, ?_, by norm_num⟩
    rw [hdel]
    simp

/-- Claim C8: `calculateEMA` seeds with the first series value and applies
`ema = value*k + ema*(1-k)` with `k = 2/(period+1)` over the whole series
oldest-to-newest (characterised by the empty, singleton and snoc equations),
and it is not invariant under input reordering: reversing the series
[0, 1] changes the EMA for period 2. -/
theorem calculateEMA_spec :
    (∀ period : ℕ, calculateEMA [] period = 0) ∧
    (∀ (x : ℚ) (period : ℕ), calculateEMA [x] period = x) ∧
    (∀ (data : List ℚ) (v : ℚ) (period : ℕ), data ≠ [] →
      calculateEMA (data ++ [v]) period =
        v * (2 / ((period : ℚ) + 1)) +
          calculateEMA data period * (1 - 2 / ((period : ℚ) + 1))) ∧
    calculateEMA [0, 1] 2 ≠ calculateEMA (List.reverse [0, 1]) 2 := by
  refine ⟨?_, ?_, ?_, ?_⟩
  · intro period
    rfl
  · intro x period
    rfl
  · intro data v period hne
    match data with
    | [] => exact absurd rfl hne
    | h :: t => simp [calculateEMA, List.foldl_append]
  · norm_num [calculateEMA]

/-- The snoc recurrence of the EMA at a concrete series and period:
appending 3 to the series [5] with period 2 gives 3*(2/3) + 5*(1/3). -/
theorem calculateEMA_spec_witness :
    calculateEMA ([5] ++ [3]) 2 =
      3 * (2 / (((2 : ℕ) : ℚ) + 1)) +
        calculateEMA [5] 2 * (1 - 2 / (((2 : ℕ) : ℚ) + 1)) :=
  calculateEMA_spec.2.2.1 [5] 3 2 (by simp)

/-- Claim C4: in `fetchRealTimeQuote`, a successful first Yahoo attempt is
returned as-is; a failed first attempt (exception or null) never escapes and
a successful second attempt is returned; and when both Yahoo attempts fail
and no Finnhub API key is configured, the call fails with the
`QuoteUnavailable` error carrying the uppercased ticker. -/
theorem fetchRealTimeQuote_spec :
    ∀ (symbol : String) (a1 a2 : Except Unit (Option MarketData))
      (key : String) (a3 : Except Unit (Option FinnhubQuote)),
      (∀ d, a1 = Except.ok (some d) →
        fetchRealTimeQuote symbol a1 a2 key a3 = Except.ok d) ∧
      (attemptFailed a1 → ∀ d, a2 = Except.ok (some d) →
        fetchRealTimeQuote symbol a1 a2 key a3 = Except.ok d) ∧
      (attemptFailed a1 → attemptFailed a2 → key = "" →
        fetchRealTimeQuote symbol a1 a2 key a3 =
          Except.error (QuoteError.quoteUnavailable symbol.toUpper)) := by
  intro symbol a1 a2 key a3
  refine ⟨?_, ?_, ?_⟩
  · intro d h1
    subst h1
    rfl
  · intro h1 d h2
    subst h2
    rcases h1 with h1 | h1 <;> subst h1 <;> rfl
  · intro h1 h2 hkey
    subst hkey
    rcases h1 with h1 | h1 <;> rcases h2 with h2 | h2 <;>
      subst h1 <;> subst h2 <;> rfl

/-- The exhausted chain at a concrete ticker: both Yahoo attempts fail
(one thrown, one null), no Finnhub key, so the result is the
`QuoteUnavailable` error for the uppercased ticker. -/
theorem fetchRealTimeQuote_spec_witness :
    fetchRealTimeQuote ("aapl") (Except.error ()) (Except.ok none) ""
        (Except.error ()) =
      Except.error (QuoteError.quoteUnavailable ("aapl".toUpper)) ∧
    ∀ d, fetchRealTimeQuote ("aapl") (Except.ok (some d)) (Except.ok none) ""
        (Except.error ()) = Except.ok d := by
  refine ⟨(fetchRealTimeQuote_spec ("aapl") (Except.error ()) (Except.ok none)
      "" (Except.error ())).2.2 (Or.inl rfl) (Or.inr rfl) rfl, ?_⟩
  intro d
  exact (fetchRealTimeQuote_spec ("aapl") (Except.ok (some d)) (Except.ok none)
    "" (Except.error ())).1 d rfl

/-- The EMA of a series whose entries are all zero is zero. -/
theorem calculateEMA_of_all_zero (l : List ℚ) (period : ℕ)
    (h : ∀ x ∈ l, x = 0) : calculateEMA l period = 0 := by
  match l with
  | [] => rfl
  | x :: t =>
    have hx : x = 0 := h x (by simp)
    have ht : ∀ y ∈ t, y = 0 := fun y hy => h y (by simp [hy])
    simp only [calculateEMA]
    subst hx
    clear h
    induction t with
    | nil => simp
    | cons y s ih =>
      have hy : y = 0 := ht y (by simp)
      have hs : ∀ z ∈ s, z = 0 := fun z hz => ht z (by simp [hz])
      subst hy
      simpa using ih hs

/-- Claim C10: for a historical series of exactly 26 bars, every entry of the
recomputed MACD history is 0 (each index is below 26), so the indicator
bundle has macdSignal = 0 and macdHistogram equal to macd, which is
EMA(12) minus EMA(26) of the oldest-first closes. -/
theorem macd_at_26_bars :
    ∀ (sqrt : ℚ → ℚ) (historical : List HistoricalData),
      historical.length = 26 →
      (∀ x ∈ macdHistoryOf ((historical.map HistoricalData.close).reverse),
        x = 0) ∧
      (calculateTechnicalIndicators sqrt historical).macdSignal = 0 ∧
      (calculateTechnicalIndicators sqrt historical).macdHistogram =
        (calculateTechnicalIndicators sqrt historical).macd ∧
      (calculateTechnicalIndicators sqrt historical).macd =
        calculateEMA ((historical.map HistoricalData.close).reverse) 12 -
          calculateEMA ((historical.map HistoricalData.close).reverse) 26 := by
  intro sqrt historical hlen
  have hclen : ((historical.map HistoricalData.close).reverse).length = 26 := by
    simp [hlen]
  have hall : ∀ x ∈ macdHistoryOf ((historical.map HistoricalData.close).reverse),
      x = 0 := by
    intro x hx
    rw [macdHistoryOf, hclen] at hx
    obtain ⟨i, hi, rfl⟩ := List.mem_map.mp hx
    rw [List.mem_range] at hi
    simp [hi]
  have hsig : calculateEMA
      ((macdHistoryOf ((historical.map HistoricalData.close).reverse)).drop
        ((macdHistoryOf ((historical.map HistoricalData.close).reverse)).length
          - 9)) 9 = 0 :=
    calculateEMA_of_all_zero _ 9
      (fun x hx => hall x (List.drop_subset _ _ hx))
  have hguard : ¬ historical.length < 26 := by omega
  refine ⟨hall, ?_, ?_, ?_⟩
  · simp only [calculateTechnicalIndicators, if_neg hguard]
    exact hsig
  · simp only [calculateTechnicalIndicators, if_neg hguard]
    rw [hsig]
    ring
  · simp only [calculateTechnicalIndicators, if_neg hguard]

/-- The 26-bar MACD facts at a concrete constant series. -/
theorem macd_at_26_bars_witness :
    (∀ x ∈ macdHistoryOf
        (((List.replicate 26
            ({ date := 0, «open» := 1, high := 1, low := 1, close := 1,
               volume := 1 } : HistoricalData)).map
          HistoricalData.close).reverse), x = 0) ∧
    (calculateTechnicalIndicators id
        (List.replicate 26
          ({ date := 0, «open» := 1, high := 1, low := 1, close := 1,
             volume := 1 } : HistoricalData))).macdSignal = 0 ∧
    (calculateTechnicalIndicators id
        (List.replicate 26
          ({ date := 0, «open» := 1, high := 1, low := 1, close := 1,
             volume := 1 } : HistoricalData))).macdHistogram =
      (calculateTechnicalIndicators id
        (List.replicate 26
          ({ date := 0, «open» := 1, high := 1, low := 1, close := 1,
             volume := 1 } : HistoricalData))).macd ∧
    (calculateTechnicalIndicators id
        (List.replicate 26
          ({ date := 0, «open» := 1, high := 1, low := 1, close := 1,
             volume := 1 } : HistoricalData))).macd =
      calculateEMA
        (((List.replicate 26
            ({ date := 0, «open» := 1, high := 1, low := 1, close := 1,
               volume := 1 } : HistoricalData)).map
          HistoricalData.close).reverse) 12 -
        calculateEMA
          (((List.replicate 26
              ({ date := 0, «open» := 1, high := 1, low := 1, close := 1,
                 volume := 1 } : HistoricalData)).map
            HistoricalData.close).reverse) 26 :=
  macd_at_26_bars id
    (List.replicate 26
      ({ date := 0, «open» := 1, high := 1, low := 1, close := 1,
         volume := 1 } : HistoricalData)) (by simp)

/-- Rounding the clamped confidence keeps it within [35, 90]. -/
theorem jsRound_clamp_bounds (q : ℚ) :
    35 ≤ jsRound (clampConfidence q) ∧ jsRound (clampConfidence q) ≤ 90 := by
  have h1 : 35 ≤ clampConfidence q := le_min (by norm_num) (le_max_left 35 q)
  have h2 : clampConfidence q ≤ 90 := min_le_left _ _
  unfold jsRound
  constructor
  · have h3 : (35 : ℤ) ≤ ⌊clampConfidence q + 1/2⌋ := by
      apply Int.le_floor.mpr
      push_cast
      linarith
    exact_mod_cast h3
  · have h4 : ⌊clampConfidence q + 1/2⌋ < 91 := by
      apply Int.floor_lt.mpr
      push_cast
      linarith
    have h5 : ⌊clampConfidence q + 1/2⌋ ≤ 90 := by omega
    exact_mod_cast h5

/-- Claim C9: in the deterministic fallback prediction, an RSI above 75 on an
UP call or below 25 on a DOWN call reduces confidence by 15 and halves the
predicted change; agreement of the call with the market trend adds 10
confidence; and the confidence field of the returned prediction is always
within [35, 90]. -/
theorem prediction_adjustments_spec :
    (∀ (rsi : ℚ) (dir : Direction) (confidence predictedChange : ℚ),
      (rsi > 75 ∧ dir = Direction.UP) ∨ (rsi < 25 ∧ dir = Direction.DOWN) →
      rsiAdjust rsi dir confidence predictedChange =
        (confidence - 15, predictedChange * 0.5)) ∧
    (∀ (marketTrend : Trend) (dir : Direction) (confidence : ℚ),
      (marketTrend = Trend.bullish ∧ dir = Direction.UP) ∨
        (marketTrend = Trend.bearish ∧ dir = Direction.DOWN) →
      trendBonus marketTrend dir confidence = confidence + 10) ∧
    (∀ (context : MarketContext) (s p : ℚ) (bull bear : CaseAnalysis)
      (now : ℤ),
      35 ≤ (generatePrediction context s p bull bear now).confidence ∧
        (generatePrediction context s p bull bear now).confidence ≤ 90) := by
  refine ⟨?_, ?_, ?_⟩
  · rintro rsi dir confidence predictedChange (⟨hr, hd⟩ | ⟨hr, hd⟩) <;>
      subst hd <;> simp [rsiAdjust, hr]
  · rintro marketTrend dir confidence (⟨hm, hd⟩ | ⟨hm, hd⟩) <;>
      subst hm <;> subst hd <;> simp [trendBonus]
  · intro context s p bull bear now
    simp only [generatePrediction]
    exact jsRound_clamp_bounds _

/-- Concrete instances of both prediction adjustments. -/
theorem prediction_adjustments_spec_witness :
    rsiAdjust 80 Direction.UP 60 4 = (60 - 15, 4 * 0.5) ∧
    rsiAdjust 20 Direction.DOWN 60 4 = (60 - 15, 4 * 0.5) ∧
    trendBonus Trend.bullish Direction.UP 60 = 60 + 10 ∧
    trendBonus Trend.bearish Direction.DOWN 60 = 60 + 10 :=
  ⟨prediction_adjustments_spec.1 80 Direction.UP 60 4
      (Or.inl ⟨by norm_num, rfl⟩),
    prediction_adjustments_spec.1 20 Direction.DOWN 60 4
      (Or.inr ⟨by norm_num, rfl⟩),
    prediction_adjustments_spec.2.1 Trend.bullish Direction.UP 60
      (Or.inl ⟨rfl, rfl⟩),
    prediction_adjustments_spec.2.1 Trend.bearish Direction.DOWN 60
      (Or.inr ⟨rfl, rfl⟩)⟩

/-- A concrete `MarketContext` used to exercise the forecast fallback. -/
def sampleContext : MarketContext where
  ticker := "TEST"
  currentPrice := 100
  priceChange24h := 0
  priceChange7d := 0
  priceChange30d := 0
  volume24h := 0
  volumeChange := 0
  technicals := getDefaultIndicators
  marketTrend := Trend.sideways
  volatility := Volatility.medium

/-- A concrete `CaseAnalysis` used to exercise the forecast fallback. -/
def sampleCase : CaseAnalysis where
  Score := 50
  Argument := "balanced"
  MomentumKey := none
  ResistanceKey := none
  Catalysts := []
  Risks := []
  TimeHorizon := "Short-term"
  Confidence := 0.5

/-- Claim C6 counterexample: two calls of the deterministic fallback on the
identical MarketContext and bull/bear cases are not byte-identical, because
the `timeframe` field records the wall-clock reading (`Date.now()`) of each
call: reading 0 and reading 1 give different outputs. -/
theorem generatePrediction_not_call_invariant :
    ¬ (generatePrediction sampleContext 0 0 sampleCase sampleCase 0 =
        generatePrediction sampleContext 0 0 sampleCase sampleCase 1) := by
  intro h
  have h2 := congrArg Prediction72H.timeframeStart h
  simp only [generatePrediction] at h2
  exact absurd h2 (by norm_num)

/-- Claim C6 (amended): the deterministic fallback has no hidden randomness:
every output field except the timeframe is a pure function of the
MarketContext, vectors and bull/bear cases (independent of the clock), and
the timeframe is exactly the clock reading and the reading plus 72 hours,
so two calls with an identical clock reading are byte-identical. -/
theorem generatePrediction_deterministic :
    ∀ (context : MarketContext) (s p : ℚ) (bull bear : CaseAnalysis)
      (now₁ now₂ : ℤ),
      (generatePrediction context s p bull bear now₁).direction =
        (generatePrediction context s p bull bear now₂).direction ∧
      (generatePrediction context s p bull bear now₁).confidence =
        (generatePrediction context s p bull bear now₂).confidence ∧
      (generatePrediction context s p bull bear now₁).predictedChange =
        (generatePrediction context s p bull bear now₂).predictedChange ∧
      (generatePrediction context s p bull bear now₁).priceTarget =
        (generatePrediction context s p bull bear now₂).priceTarget ∧
      (generatePrediction context s p bull bear now₁).supportLevel =
        (generatePrediction context s p bull bear now₂).supportLevel ∧
      (generatePrediction context s p bull bear now₁).resistanceLevel =
        (generatePrediction context s p bull bear now₂).resistanceLevel ∧
      (generatePrediction context s p bull bear now₁).reasoning =
        (generatePrediction context s p bull bear now₂).reasoning ∧
      (generatePrediction context s p bull bear now₁).keyFactors =
        (generatePrediction context s p bull bear now₂).keyFactors ∧
      (generatePrediction context s p bull bear now₁).riskFactors =
        (generatePrediction context s p bull bear now₂).riskFactors ∧
      (generatePrediction context s p bull bear now₁).timeframeStart = now₁ ∧
      (generatePrediction context s p bull bear now₁).timeframeEnd =
        now₁ + 72 * 60 * 60 * 1000 := by
  intro context s p bull bear now₁ now₂
  exact ⟨rfl, rfl, rfl, rfl, rfl, rfl, rfl, rfl, rfl, rfl, rfl⟩

/-- Rounding to two decimals is monotone. -/
theorem toFixed2_mono {a b : ℚ} (h : a ≤ b) : toFixed2 a ≤ toFixed2 b := by
  unfold toFixed2 jsRound
  have h1 : (⌊a * 100 + 1/2⌋ : ℤ) ≤ ⌊b * 100 + 1/2⌋ :=
    Int.floor_le_floor (by linarith)
  have h2 : ((⌊a * 100 + 1/2⌋ : ℤ) : ℚ) ≤ ((⌊b * 100 + 1/2⌋ : ℤ) : ℚ) := by
    exact_mod_cast h1
  linarith

/-- A successful association-list lookup finds a member of the list. -/
theorem lookup_mem {β : Type} (l : List (String × β)) (s : String) (p : β)
    (h : l.lookup s = some p) : (s, p) ∈ l := by
  induction l with
  | nil => simp [List.lookup] at h
  | cons x t ih =>
    obtain ⟨k, v⟩ := x
    by_cases hk : (s == k) = true
    · simp only [List.lookup, hk] at h
      obtain rfl := Option.some.inj h
      obtain rfl : s = k := eq_of_beq hk
      exact List.mem_cons_self _ _
    · have hk2 : (s == k) = false := by simpa using hk
      simp only [List.lookup, hk2] at h
      exact List.mem_cons_of_mem _ (ih h)

/-- The base price is positive for every symbol: all table entries are
positive and the randomized fallback lies in [100, 300). -/
theorem getBasePrice_pos (symbol : String) (d : ℚ) (hd : 0 ≤ d) :
    0 < getBasePrice symbol d := by
  unfold getBasePrice
  cases hl : basePrices.lookup symbol.toUpper with
  | none =>
    have : 0 ≤ d * 200 := by positivity
    simp only
    linarith
  | some p =>
    have hmem := lookup_mem _ _ _ hl
    have hp : ∀ x ∈ basePrices, (0 : ℚ) < x.2 := by
      intro x hx
      fin_cases hx <;> norm_num
    exact hp _ hmem

/-- The mean-reverting random walk keeps the price strictly positive. -/
theorem fallbackNextPrice_pos (basePrice currentPrice changeDraw : ℚ)
    (hbase : 0 < basePrice) (hp : 0 < currentPrice)
    (hd0 : 0 ≤ changeDraw) (hd1 : changeDraw < 1) :
    0 < fallbackNextPrice basePrice currentPrice changeDraw := by
  unfold fallbackNextPrice
  nlinarith [mul_nonneg hd0 hbase.le]

/-- A bar built from a positive price and in-range draws satisfies all
HistoricalBar invariants. -/
theorem fallbackBar_valid (today : ℤ) (i : ℕ)
    (price volDraw openDraw volumeDraw : ℚ) (hp : 0 < price)
    (h2a : 0 ≤ volDraw) (h2b : volDraw < 1)
    (h3a : 0 ≤ openDraw) (h3b : openDraw < 1)
    (h4a : 0 ≤ volumeDraw) :
    validBar (fallbackBar today i price volDraw openDraw volumeDraw) := by
  simp only [validBar, fallbackBar]
  set V := volDraw * (2/100) + 1/100 with hV
  have hV0 : 0 < V := by
    have := mul_nonneg h2a (by norm_num : (0:ℚ) ≤ 2/100)
    rw [hV]
    linarith
  have hV1 : V < 1 := by
    rw [hV]
    nlinarith
  have hlh : price * (1 - V) ≤ price * (1 + V) := by nlinarith
  have hlp : price * (1 - V) ≤ price := by nlinarith
  have hph : price ≤ price * (1 + V) := by nlinarith
  have hlo : price * (1 - V) ≤
      price * (1 - V) + openDraw * (price * (1 + V) - price * (1 - V)) := by
    nlinarith [mul_nonneg h3a (sub_nonneg.mpr hlh)]
  have hoh : price * (1 - V) + openDraw * (price * (1 + V) - price * (1 - V)) ≤
      price * (1 + V) := by nlinarith
  refine ⟨le_min (toFixed2_mono hlo) (toFixed2_mono hlp), min_le_max,
    max_le (toFixed2_mono hoh) (toFixed2_mono hph), toFixed2_mono hlh, ?_, ?_⟩
  · have hfl : (0:ℚ) ≤ mathFloor (volumeDraw * 10000000) := by
      unfold mathFloor
      have hz : (0:ℤ) ≤ ⌊volumeDraw * 10000000⌋ :=
        Int.floor_nonneg.mpr (by positivity)
      exact_mod_cast hz
    linarith
  · refine ⟨⌊volumeDraw * 10000000⌋ + 1000000, ?_⟩
    push_cast [mathFloor]
    ring

/-- Every run of the synthesis loop produces exactly `m` bars, all valid. -/
theorem genFallbackAux_spec (basePrice : ℚ) (today : ℤ) (draws : ℕ → ℚ)
    (hdraws : ∀ n, 0 ≤ draws n ∧ draws n < 1) (hbase : 0 < basePrice) :
    ∀ (m j : ℕ) (currentPrice : ℚ), 0 < currentPrice →
      (genFallbackAux basePrice today draws j m currentPrice).length = m ∧
      ∀ bar ∈ genFallbackAux basePrice today draws j m currentPrice,
        validBar bar := by
  intro m
  induction m with
  | zero =>
    intro j p hp
    simp [genFallbackAux]
  | succ m ih =>
    intro j p hp
    have hprice : 0 < fallbackNextPrice basePrice p (draws (4 * j)) :=
      fallbackNextPrice_pos basePrice p (draws (4 * j)) hbase hp
        (hdraws (4 * j)).1 (hdraws (4 * j)).2
    obtain ⟨ihlen, ihval⟩ :=
      ih (j + 1) (fallbackNextPrice basePrice p (draws (4 * j))) hprice
    constructor
    · simp [genFallbackAux, ihlen]
    · intro bar hbar
      simp only [genFallbackAux] at hbar
      rcases List.mem_cons.mp hbar with rfl | hmem
      · exact fallbackBar_valid today m _ (draws (4 * j + 1))
          (draws (4 * j + 2)) (draws (4 * j + 3)) hprice
          (hdraws (4 * j + 1)).1 (hdraws (4 * j + 1)).2
          (hdraws (4 * j + 2)).1 (hdraws (4 * j + 2)).2
          (hdraws (4 * j + 3)).1
      · exact ihval bar hmem

/-- Claim C5: for every symbol and every draw stream in [0, 1), the
synthetic-history generator returns exactly 100 bars, each satisfying
high ≥ max(open, close) ≥ min(open, close) ≥ low, high ≥ low, and an
integral volume ≥ 0. -/
theorem generateFallbackHistoricalData_invariants :
    ∀ (symbol : String) (today : ℤ) (draws : ℕ → ℚ),
      (∀ n, 0 ≤ draws n ∧ draws n < 1) →
      (generateFallbackHistoricalData symbol today draws).length = 100 ∧
      ∀ bar ∈ generateFallbackHistoricalData symbol today draws,
        validBar bar := by
  intro symbol today draws hdraws
  have hbase : 0 < getBasePrice symbol (draws 0) :=
    getBasePrice_pos symbol (draws 0) (hdraws 0).1
  have h := genFallbackAux_spec (getBasePrice symbol (draws 0)) today
    (fun n => draws (n + 1)) (fun n => hdraws (n + 1)) hbase 100 0
    (getBasePrice symbol (draws 0)) hbase
  unfold generateFallbackHistoricalData
  exact h

/-- The synthesis invariants at a concrete symbol and constant draw 1/2. -/
theorem generateFallbackHistoricalData_invariants_witness :
    (generateFallbackHistoricalData ("AAPL") 0 (fun _ => 1/2)).length = 100 ∧
    ∀ bar ∈ generateFallbackHistoricalData ("AAPL") 0 (fun _ => 1/2),
      validBar bar :=
  generateFallbackHistoricalData_invariants ("AAPL") 0 (fun _ => 1/2)
    (fun _ => ⟨by norm_num, by norm_num⟩)

/-- The dates of the synthesized bars are `today - i` for loop index `i`
counting down, i.e. the produced list is ordered oldest-first. -/
theorem genFallbackAux_dates (basePrice : ℚ) (today : ℤ) (draws : ℕ → ℚ) :
    ∀ (m j : ℕ) (p : ℚ),
      (genFallbackAux basePrice today draws j m p).map HistoricalData.date =
        (List.range m).reverse.map (fun i => today - (i : ℤ)) := by
  intro m
  induction m with
  | zero =>
    intro j p
    simp [genFallbackAux]
  | succ m ih =>
    intro j p
    have hr : (List.range (m + 1)).reverse = m :: (List.range m).reverse := by
      simp [List.range_succ]
    rw [hr]
    simp only [genFallbackAux, List.map_cons]
    simp [fallbackBar, ih (j + 1)]

/-- Claim C7 evaluated on the synthesized-fallback path: the bar at index 0
carries the OLDEST date (99 days before today) and the bar at index 99
carries the date of today, so this acquisition path is ordered oldest-first,
not most-recent-first. -/
theorem fallbackHistory_oldest_first :
    ((generateFallbackHistoricalData ("AAPL") 0 (fun _ => 1/2)).map
        HistoricalData.date).getD 0 0 = -99 ∧
    ((generateFallbackHistoricalData ("AAPL") 0 (fun _ => 1/2)).map
        HistoricalData.date).getD 99 0 = 0 ∧
    ((-99 : ℤ) < 0) := by
  unfold generateFallbackHistoricalData
  rw [genFallbackAux_dates]
  refine ⟨?_, ?_, by norm_num⟩ <;> decide
